import Mathlib

/-!
# Verification of the flask-jwt-extended request-guard pipeline

Shallow embedding of `flask_jwt_extended/view_decorators.py`.  The module's
collaborators (`decode_token`, `verify_token_type`, `verify_token_claims`,
`verify_token_not_blacklisted`, `user_loader`, the `config` object and the
request object) live outside the given source file; they are modelled as
explicit parameters (a `Collaborators` record, a `Config` record and a
`Request` record), exactly as the specification treats them: opaque
capabilities with a declared contract.  Python exceptions become an explicit
error type `JwtErr`; an uncaught Python `IndexError` is its own constructor so
that crashes of the source are observable.  The per-request context
(`ctx_stack.top`) becomes an explicit `Ctx` value threaded through the guard
functions, and every guard additionally records a trace of the pipeline
stages it executed, so that ordering claims can be stated.
-/

/-- Python `str.isspace` characters relevant to `str.split()` / `\s` for the
ASCII inputs the claims are about. -/
def isPySpace (c : Char) : Bool :=
  c = ' ' || c = '\t' || c = '\n' || c = '\r' || c = '\x0b' || c = '\x0c'

/-- Helper for `pySplitWs`: accumulates the current word (reversed). -/
def pySplitWsAux : List Char → List Char → List String
  | [], acc => if acc.isEmpty then [] else [String.mk acc.reverse]
  | c :: rest, acc =>
    if isPySpace c then
      if acc.isEmpty then pySplitWsAux rest []
      else String.mk acc.reverse :: pySplitWsAux rest []
    else pySplitWsAux rest (c :: acc)

/-- Python `s.split()` (no argument): split on runs of whitespace, discarding
empty strings.  `"".split() = []`. -/
def pySplitWs (s : String) : List String :=
  pySplitWsAux s.data []

/-- Helper for `reSplitCommaWs`: drop the whitespace consumed by `\s*`. -/
def dropWs : List Char → List Char
  | [] => []
  | c :: rest => if isPySpace c then dropWs rest else c :: rest

/-- Helper for `reSplitCommaWs`, built right to left: a comma ends the
current segment, and the whitespace the regex consumes after a comma is
stripped from the front of the segment that follows it. -/
def reSplitCommaWsAux : List Char → List (List Char)
  | [] => [[]]
  | c :: rest =>
    match reSplitCommaWsAux rest with
    | [] => [[]]
    | seg :: segs =>
      if c = ',' then [] :: dropWs seg :: segs
      else (c :: seg) :: segs

/-- Python `re.split(r',\s*', s)`: cut at every comma, the comma and the
(maximal) run of whitespace after it are consumed. -/
def reSplitCommaWs (s : String) : List String :=
  (reSplitCommaWsAux s.data).map (fun cs => String.mk cs)

/-- JSON-ish claim values stored in a decoded token. -/
inductive JVal
  | b (x : Bool)
  | n (x : Int)
  | s (x : String)
  deriving DecidableEq, Repr

/-- The value of the `fresh` claim: Python stores either a `bool` or a
numeric timestamp; the source dispatches on `isinstance(fresh, bool)`. -/
inductive FreshVal
  | b (x : Bool)
  | ts (t : Int)
  deriving DecidableEq, Repr

/-- Decoded token claims (`jwt_data`).  The decode collaborator guarantees
the required keys (identity, type, freshness), so the two claims the source
file reads directly — `jwt_data['fresh']` and
`jwt_data[config.identity_claim_key]` — are fields; all remaining claims are
an association list.  The type claim is only ever read by the opaque
`verify_token_type` collaborator. -/
structure JwtData where
  fresh : FreshVal
  identity : JVal
  other : List (String × JVal) := []
  deriving DecidableEq, Repr

/-- Loaded user object (opaque principal). -/
abbrev Principal := String

/-- Error taxonomy of the pipeline.  `flask_jwt_extended/exceptions.py` is
not part of the given source; modelled from the spec's error taxonomy
(section 7), where each kind is distinct (no subclassing between kinds).
`pyIndexError` models an uncaught Python `IndexError` (a crash that is no
declared error kind at all). -/
inductive JwtErr
  | noAuthorizationError (msg : String)
  | invalidHeaderError (msg : String)
  | csrfError (msg : String)
  | wrongTokenTypeError (msg : String)
  | freshTokenRequired (msg : String)
  | revokedTokenError (msg : String)
  | userClaimsVerificationError (msg : String)
  | userLoadError (msg : String)
  | decodeError (msg : String)
  | pyIndexError
  deriving DecidableEq, Repr

/-- The request-scoped context (`ctx_stack.top`), empty at request start. -/
structure Ctx where
  jwt : Option JwtData := none
  jwt_header : Option String := none
  jwt_user : Option Principal := none
  deriving DecidableEq, Repr

/-- Token source locations (`JWT_TOKEN_LOCATION` entries). -/
inductive Location
  | cookies
  | query_string
  | headers
  | json
  deriving DecidableEq, Repr

/-- The configured identifier of a location, as used in error messages. -/
def Location.name : Location → String
  | .cookies => "cookies"
  | .query_string => "query_string"
  | .headers => "headers"
  | .json => "json"

/-- Configuration snapshot (`flask_jwt_extended.config.config`); the config
module is not part of the given source, its surface is taken from the spec's
configuration list (section 6).  Python truthiness of `header_type` is
modelled by `header_type ≠ ""`. -/
structure Config where
  exempt_methods : List String := []
  token_location : List Location := [.headers]
  header_name : String := "Authorization"
  header_type : String := "Bearer"
  access_cookie_name : String := "access_token_cookie"
  refresh_cookie_name : String := "refresh_token_cookie"
  access_csrf_header_name : String := "X-CSRF-TOKEN"
  refresh_csrf_header_name : String := "X-CSRF-TOKEN"
  access_csrf_field_name : String := "csrf_token"
  refresh_csrf_field_name : String := "csrf_token"
  csrf_protect : Bool := false
  csrf_request_methods : List String := ["POST", "PUT", "PATCH", "DELETE"]
  csrf_check_form : Bool := false
  query_string_name : String := "jwt"
  json_key : String := "access_token"
  refresh_json_key : String := "refresh_token"
  identity_claim_key : String := "identity"
  deriving Repr

/-- The inbound HTTP request, reduced to the fields the source reads.
`json = none` models a body that is not valid JSON (where Flask's
`request.json` raises `BadRequest`). -/
structure Request where
  method : String := "GET"
  headers : List (String × String) := []
  cookies : List (String × String) := []
  args : List (String × String) := []
  form : List (String × String) := []
  content_type : String := ""
  json : Option (List (String × String)) := none
  deriving Repr

/-- `dict.get(key, None)` over an association list. -/
def pyGet (l : List (String × String)) (k : String) : Option String :=
  (l.find? (fun p => p.1 = k)).map Prod.snd

/-- Python truthiness test for an optional string: `None` and `""` are
falsy. -/
def isTruthy : Option String → Bool
  | none => false
  | some s => s ≠ ""

/-- `_decode_jwt_from_headers`.  Returns `(encoded_token, csrf_value)`.
The list comprehension `[s for s in field_values if s.split()[0] == header_type]`
evaluates `s.split()[0]` on every element in order, so any comma-delimited
segment that is pure whitespace raises `IndexError` before filtering
completes. -/
def _decode_jwt_from_headers (cfg : Config) (req : Request) :
    Except JwtErr (String × Option String) :=
  let header_name := cfg.header_name
  let header_type := cfg.header_type
  match pyGet req.headers header_name with
  | none => .error (.noAuthorizationError s!"Missing {header_name} Header")
  | some auth_header =>
    if auth_header = "" then
      .error (.noAuthorizationError s!"Missing {header_name} Header")
    else if header_type ≠ "" then
      let field_values := reSplitCommaWs auth_header
      if field_values.any (fun s => (pySplitWs s).isEmpty) then
        .error .pyIndexError
      else
        let jwt_header := field_values.filter
          (fun s => (pySplitWs s).headD "" = header_type)
        match jwt_header with
        | [] => .error (.invalidHeaderError
            s!"Bad {header_name} header. Expected value \x27{header_type} <JWT>\x27")
        | jh :: _ =>
          if (pySplitWs jh).length ≠ 2 then
            .error (.invalidHeaderError
              s!"Bad {header_name} header. Expected value \x27{header_type} <JWT>\x27")
          else
            .ok ((pySplitWs jh).getD 1 "", none)
    else
      let parts := pySplitWs auth_header
      if parts.length ≠ 1 then
        .error (.invalidHeaderError
          s!"Bad {header_name} header. Expected value \x27<JWT>\x27")
      else
        .ok (parts.headD "", none)

/-- `_decode_jwt_from_cookies`. -/
def _decode_jwt_from_cookies (cfg : Config) (req : Request)
    (request_type : String) : Except JwtErr (String × Option String) :=
  let cookie_key :=
    if request_type = "access" then cfg.access_cookie_name
    else cfg.refresh_cookie_name
  let csrf_header_key :=
    if request_type = "access" then cfg.access_csrf_header_name
    else cfg.refresh_csrf_header_name
  let csrf_field_key :=
    if request_type = "access" then cfg.access_csrf_field_name
    else cfg.refresh_csrf_field_name
  let encoded_token := pyGet req.cookies cookie_key
  if ¬ isTruthy encoded_token then
    .error (.noAuthorizationError s!"Missing cookie \"{cookie_key}\"")
  else if cfg.csrf_protect ∧ req.method ∈ cfg.csrf_request_methods then
    let csrf_value := pyGet req.headers csrf_header_key
    let csrf_value :=
      if ¬ isTruthy csrf_value ∧ cfg.csrf_check_form then
        pyGet req.form csrf_field_key
      else csrf_value
    if ¬ isTruthy csrf_value then .error (.csrfError "Missing CSRF token")
    else .ok (encoded_token.getD "", csrf_value)
  else
    .ok (encoded_token.getD "", none)

/-- `_decode_jwt_from_query_string`. -/
def _decode_jwt_from_query_string (cfg : Config) (req : Request) :
    Except JwtErr (String × Option String) :=
  let query_param := cfg.query_string_name
  let encoded_token := pyGet req.args query_param
  if ¬ isTruthy encoded_token then
    .error (.noAuthorizationError s!"Missing \"{query_param}\" query paramater")
  else
    .ok (encoded_token.getD "", none)

/-- `_decode_jwt_from_json`.  `req.json = none` (unparsable body) makes
`request.json` raise `BadRequest`, which the source converts to
`NoAuthorizationError`, as it does a missing or falsy key. -/
def _decode_jwt_from_json (cfg : Config) (req : Request)
    (request_type : String) : Except JwtErr (String × Option String) :=
  if req.content_type ≠ "application/json" then
    .error (.noAuthorizationError "Invalid content-type. Must be application/json.")
  else
    let token_key :=
      if request_type = "access" then cfg.json_key else cfg.refresh_json_key
    match req.json with
    | none =>
      .error (.noAuthorizationError s!"Missing \"{token_key}\" key in json data.")
    | some body =>
      let encoded_token := pyGet body token_key
      if ¬ isTruthy encoded_token then
        .error (.noAuthorizationError s!"Missing \"{token_key}\" key in json data.")
      else
        .ok (encoded_token.getD "", none)

/-- The external collaborators consumed by `view_decorators.py`
(`flask_jwt_extended.utils` is not part of the given source; the spec treats
them as opaque capability interfaces, so they are parameters here).
`Option JwtErr` results: `none` means the check passed. -/
structure Collaborators where
  decode_token : String → Option String → Except JwtErr JwtData
  get_unverified_jwt_headers : String → String
  verify_token_type : JwtData → String → Option JwtErr
  verify_token_not_blacklisted : JwtData → String → Option JwtErr
  verify_token_claims : JwtData → Option JwtErr
  has_user_loader : Bool
  user_loader : JVal → Option Principal

/-- Pipeline stages recorded in the execution trace.  A stage is appended to
the trace at the moment it starts executing; `verifyType` records the
expected token type it was invoked with. -/
inductive Stage
  | locate
  | verifyType (expected : String)
  | verifyRevocation
  | publishContext
  | verifyFreshness
  | verifyClaims
  | loadIdentity
  deriving DecidableEq, Repr

/-- Dispatch of the `JWT_TOKEN_LOCATION` entries to extraction strategies,
mirroring the closure list built by `_decode_jwt_from_request`. -/
def extractFrom (cfg : Config) (req : Request) (request_type : String) :
    Location → Except JwtErr (String × Option String)
  | .cookies => _decode_jwt_from_cookies cfg req request_type
  | .query_string => _decode_jwt_from_query_string cfg req
  | .headers => _decode_jwt_from_headers cfg req
  | .json => _decode_jwt_from_json cfg req request_type

/-- One iteration of the location loop: extraction, then `decode_token`, then
`get_unverified_jwt_headers`; any error from the first two aborts the
iteration (the `try` block covers all of them). -/
def tryOneLocation (cfg : Config) (co : Collaborators) (req : Request)
    (request_type : String) (loc : Location) :
    Except JwtErr (JwtData × String) := do
  let (encoded_token, csrf_token) ← extractFrom cfg req request_type loc
  let decoded_token ← co.decode_token encoded_token csrf_token
  let jwt_header := co.get_unverified_jwt_headers encoded_token
  pure (decoded_token, jwt_header)

/-- Outcome of the location loop. -/
inductive LocateOutcome
  | found (token : JwtData × String) (attempted : List Location)
  | fatal (e : JwtErr) (attempted : List Location)
  | exhausted (errors : List String) (attempted : List Location)
  deriving Repr

/-- The location loop of `_decode_jwt_from_request`: `NoAuthorizationError`
is caught and its message appended to `errors`; any other error propagates;
the loop `break`s at the first location that decodes successfully.
`attempted` records which locations were consulted. -/
def tryLocations (cfg : Config) (co : Collaborators) (req : Request)
    (request_type : String) : List Location → List String → LocateOutcome
  | [], errors => .exhausted errors []
  | loc :: rest, errors =>
    match tryOneLocation cfg co req request_type loc with
    | .ok tok => .found tok [loc]
    | .error (.noAuthorizationError m) =>
      match tryLocations cfg co req request_type rest (errors ++ [m]) with
      | .found tok attempted => .found tok (loc :: attempted)
      | .fatal e attempted => .fatal e (loc :: attempted)
      | .exhausted errs attempted => .exhausted errs (loc :: attempted)
    | .error e => .fatal e [loc]

/-- The composed no-token error message of `_decode_jwt_from_request`
(lines 371-383).  The source indexes `token_locations[-1]` and `errors[0]`,
which presupposes a non-empty configured location list; configuration
validation outside this module guarantees it. -/
def composeNoTokenMsg (token_locations : List Location) (errors : List String) :
    String :=
  if token_locations.length ≠ 1 then
    let names := token_locations.map Location.name
    let start_locs := String.intercalate ", " names.dropLast
    let end_locs := names.getLastD ""
    let details := String.intercalate "; " errors
    s!"Missing JWT in {start_locs} or {end_locs} ({details})"
  else
    errors.headD ""

/-- `_decode_jwt_from_request`: the location loop, the composed error when no
token was found, then `verify_token_type` and `verify_token_not_blacklisted`.
Also returns the trace of executed stages. -/
def _decode_jwt_from_request (cfg : Config) (co : Collaborators)
    (req : Request) (request_type : String) :
    Except JwtErr (JwtData × String) × List Stage :=
  match tryLocations cfg co req request_type cfg.token_location [] with
  | .fatal e _ => (.error e, [.locate])
  | .exhausted errors _ =>
    (.error (.noAuthorizationError (composeNoTokenMsg cfg.token_location errors)),
     [.locate])
  | .found (decoded_token, jwt_header) _ =>
    match co.verify_token_type decoded_token request_type with
    | some e => (.error e, [.locate, .verifyType request_type])
    | none =>
      match co.verify_token_not_blacklisted decoded_token request_type with
      | some e =>
        (.error e, [.locate, .verifyType request_type, .verifyRevocation])
      | none =>
        (.ok (decoded_token, jwt_header),
         [.locate, .verifyType request_type, .verifyRevocation])

/-- Result of one guard execution: the outcome, the final request context
(initially empty), and the trace of pipeline stages that started. -/
structure RunResult where
  result : Except JwtErr Unit
  ctx : Ctx
  trace : List Stage
  deriving Repr

/-- `_load_user`: no-op when no loader is configured; a configured loader
returning `None` is `UserLoadError`; otherwise the principal is bound into
the context. -/
def _load_user (co : Collaborators) (identity : JVal) (ctx : Ctx) :
    Except JwtErr Ctx :=
  if co.has_user_loader then
    match co.user_loader identity with
    | none => .error (.userLoadError "user_loader returned None")
    | some user => .ok { ctx with jwt_user := some user }
  else
    .ok ctx

/-- `verify_jwt_in_request` (the RequiredAccess guard). -/
def verify_jwt_in_request (cfg : Config) (co : Collaborators) (req : Request) :
    RunResult :=
  if req.method ∈ cfg.exempt_methods then ⟨.ok (), {}, []⟩
  else
    match _decode_jwt_from_request cfg co req "access" with
    | (.error e, tr) => ⟨.error e, {}, tr⟩
    | (.ok (jwt_data, jwt_header), tr) =>
      let ctx : Ctx := { jwt := some jwt_data, jwt_header := some jwt_header }
      let tr := tr ++ [.publishContext, .verifyClaims]
      match co.verify_token_claims jwt_data with
      | some e => ⟨.error e, ctx, tr⟩
      | none =>
        match _load_user co jwt_data.identity ctx with
        | .error e => ⟨.error e, ctx, tr ++ [.loadIdentity]⟩
        | .ok ctx => ⟨.ok (), ctx, tr ++ [.loadIdentity]⟩

/-- `verify_jwt_in_request_optional` (the OptionalAccess guard): the body of
`verify_jwt_in_request` inside `try ... except (NoAuthorizationError,
InvalidHeaderError): pass`.  Context assignments made before the swallowed
exception remain in place, exactly as in the Python. -/
def verify_jwt_in_request_optional (cfg : Config) (co : Collaborators)
    (req : Request) : RunResult :=
  let r := verify_jwt_in_request cfg co req
  match r.result with
  | .error (.noAuthorizationError _) => ⟨.ok (), r.ctx, r.trace⟩
  | .error (.invalidHeaderError _) => ⟨.ok (), r.ctx, r.trace⟩
  | _ => r

/-- `verify_fresh_jwt_in_request` (the FreshAccessRequired guard); `now` is
`timegm(datetime.utcnow().utctimetuple())`, passed explicitly. -/
def verify_fresh_jwt_in_request (cfg : Config) (co : Collaborators)
    (req : Request) (now : Int) : RunResult :=
  if req.method ∈ cfg.exempt_methods then ⟨.ok (), {}, []⟩
  else
    match _decode_jwt_from_request cfg co req "access" with
    | (.error e, tr) => ⟨.error e, {}, tr⟩
    | (.ok (jwt_data, jwt_header), tr) =>
      let ctx : Ctx := { jwt := some jwt_data, jwt_header := some jwt_header }
      let tr := tr ++ [.publishContext, .verifyFreshness]
      let freshFails : Bool :=
        match jwt_data.fresh with
        | .b fresh => !fresh
        | .ts fresh => decide (fresh < now)
      if freshFails then
        ⟨.error (.freshTokenRequired "Fresh token required"), ctx, tr⟩
      else
        let tr := tr ++ [.verifyClaims]
        match co.verify_token_claims jwt_data with
        | some e => ⟨.error e, ctx, tr⟩
        | none =>
          match _load_user co jwt_data.identity ctx with
          | .error e => ⟨.error e, ctx, tr ++ [.loadIdentity]⟩
          | .ok ctx => ⟨.ok (), ctx, tr ++ [.loadIdentity]⟩

/-- `verify_jwt_refresh_token_in_request` (the RequiredRefresh guard): decode
with expected type `"refresh"`, publish, load user — no freshness check and
no `verify_token_claims` call appear in its body. -/
def verify_jwt_refresh_token_in_request (cfg : Config) (co : Collaborators)
    (req : Request) : RunResult :=
  if req.method ∈ cfg.exempt_methods then ⟨.ok (), {}, []⟩
  else
    match _decode_jwt_from_request cfg co req "refresh" with
    | (.error e, tr) => ⟨.error e, {}, tr⟩
    | (.ok (jwt_data, jwt_header), tr) =>
      let ctx : Ctx := { jwt := some jwt_data, jwt_header := some jwt_header }
      let tr := tr ++ [.publishContext]
      match _load_user co jwt_data.identity ctx with
      | .error e => ⟨.error e, ctx, tr ++ [.loadIdentity]⟩
      | .ok ctx => ⟨.ok (), ctx, tr ++ [.loadIdentity]⟩

/-! ## Spec-side definitions and concrete fixtures -/

/-- The header-extraction contract as amended: with a configured type, at
least one comma-delimited pair must match the configured type and the first
matching pair must consist of exactly two whitespace-separated tokens, else
`InvalidHeaderError`; the extracted token is the second token of the first
matching pair.  With no configured type, the raw header must be exactly one
whitespace-separated token. -/
def headerExtractAmended (header_name header_type auth_header : String) :
    Except JwtErr (String × Option String) :=
  if header_type ≠ "" then
    match (reSplitCommaWs auth_header).filter
        (fun s => (pySplitWs s).headD "" = header_type) with
    | [] => .error (.invalidHeaderError
        s!"Bad {header_name} header. Expected value \x27{header_type} <JWT>\x27")
    | jh :: _ =>
      match pySplitWs jh with
      | [_, tok] => .ok (tok, none)
      | _ => .error (.invalidHeaderError
          s!"Bad {header_name} header. Expected value \x27{header_type} <JWT>\x27")
  else
    match pySplitWs auth_header with
    | [tok] => .ok (tok, none)
    | _ => .error (.invalidHeaderError
        s!"Bad {header_name} header. Expected value \x27<JWT>\x27")

/-- Default configuration: headers location, `Authorization` / `Bearer`. -/
def cfgDefault : Config := {}

/-- A request carrying only an `Authorization` header. -/
def reqAuth (v : String) : Request := { headers := [("Authorization", v)] }

/-- A well-formed decoded access token. -/
def jwtOk : JwtData := { fresh := .b true, identity := .s "alice" }

/-- A decoded access token whose freshness claim is the boolean `false`. -/
def jwtStale : JwtData := { fresh := .b false, identity := .s "alice" }

/-- Collaborators for which every check passes and the user loader resolves
string identities to themselves. -/
def coAllPass : Collaborators where
  decode_token := fun tok _ =>
    if tok = "good.token" then .ok jwtOk else .error (.decodeError "bad token")
  get_unverified_jwt_headers := fun _ => "jose-header"
  verify_token_type := fun _ _ => none
  verify_token_not_blacklisted := fun _ _ => none
  verify_token_claims := fun _ => none
  has_user_loader := true
  user_loader := fun v => match v with | .s s => some s | _ => none

/-! ## C3: header parsing with a configured type -/

/-- C3 (counterexample): with header type `Bearer` configured, the header
value `Bearer a, Bearer b` contains two pairs matching the configured type,
yet extraction succeeds with the first pair's token instead of raising
`InvalidHeaderError`, refuting "exactly one pair must match … zero or more
than one matching pair raises InvalidHeaderError". -/
theorem C3_two_matching_pairs_accepted :
    ((reSplitCommaWs "Bearer a, Bearer b").filter
      (fun s => (pySplitWs s).headD "" = "Bearer")).length = 2 ∧
    _decode_jwt_from_headers cfgDefault (reqAuth "Bearer a, Bearer b")
      = .ok ("a", none) :=
  ⟨rfl, rfl⟩

/-- C3 (amended): for a present, non-empty header value, header extraction
agrees with `headerExtractAmended`: with a configured type (and no
whitespace-only comma segment), at least one pair must match and the first
matching pair must have exactly two whitespace-separated tokens, else
`InvalidHeaderError`, the extracted token being the second token of the
first matching pair; with no configured type, the raw value must be exactly
one token, else `InvalidHeaderError`. -/
theorem C3_header_extraction_amended (cfg : Config) (req : Request)
    (auth_header : String)
    (hget : pyGet req.headers cfg.header_name = some auth_header)
    (hne : auth_header ≠ "")
    (hseg : cfg.header_type ≠ "" →
      ∀ s ∈ reSplitCommaWs auth_header, pySplitWs s ≠ []) :
    _decode_jwt_from_headers cfg req
      = headerExtractAmended cfg.header_name cfg.header_type auth_header := by
  unfold _decode_jwt_from_headers headerExtractAmended
  simp only [hget]
  simp only [if_neg (by simpa using hne)]
  by_cases ht : cfg.header_type = ""
  · simp only [ht, ne_eq, not_true_eq_false, if_false, ite_not]
    rcases hp : pySplitWs auth_header with _ | ⟨tok, _ | ⟨b, rest⟩⟩ <;>
      simp [hp]
  · have hany : (reSplitCommaWs auth_header).any
        (fun s => (pySplitWs s).isEmpty) = false := by
      rw [List.any_eq_false]
      intro s hs
      simpa using hseg ht s hs
    simp only [if_pos ht, hany, Bool.false_eq_true, if_false, ite_not]
    rcases hf : (reSplitCommaWs auth_header).filter
        (fun s => (pySplitWs s).headD "" = cfg.header_type) with _ | ⟨jh, rest⟩
    · simp [ht]
    · have hjh : (pySplitWs jh).headD "" = cfg.header_type := by
        have : jh ∈ (reSplitCommaWs auth_header).filter
            (fun s => (pySplitWs s).headD "" = cfg.header_type) := by
          rw [hf]; exact List.mem_cons_self _ _
        simpa using (List.mem_filter.mp this).2
      simp only [ht, if_pos]
      rcases hsp : pySplitWs jh with _ | ⟨a, _ | ⟨b, _ | ⟨c, more⟩⟩⟩ <;>
        simp [hsp, ht]

/-- C3 (witness): the amended characterization applied to the spec's own
example `Authorization: Bearer abc.def.ghi` with type `Bearer` configured,
which extracts `abc.def.ghi`. -/
theorem C3_header_extraction_amended_witness :
    _decode_jwt_from_headers cfgDefault (reqAuth "Bearer abc.def.ghi")
      = headerExtractAmended "Authorization" "Bearer" "Bearer abc.def.ghi" ∧
    _decode_jwt_from_headers cfgDefault (reqAuth "Bearer abc.def.ghi")
      = .ok ("abc.def.ghi", none) :=
  ⟨C3_header_extraction_amended cfgDefault (reqAuth "Bearer abc.def.ghi")
      "Bearer abc.def.ghi" (by decide) (by decide) (by decide),
   rfl⟩

/-! ## C10: totality of header extraction over the declared error taxonomy -/

/-- C10: with header type `Bearer` configured, the header value
`Bearer abc.def.ghi,` has a trailing comma, so `re.split(r',\s*', ...)`
produces an empty segment and the comprehension's `s.split()[0]` raises an
uncaught Python `IndexError` — neither `NoAuthorizationError` nor
`InvalidHeaderError`, contradicting the declared error taxonomy. -/
theorem C10_trailing_comma_raises_index_error :
    _decode_jwt_from_headers cfgDefault (reqAuth "Bearer abc.def.ghi,")
      = .error .pyIndexError ∧
    (∀ m, JwtErr.pyIndexError ≠ .noAuthorizationError m) ∧
    (∀ m, JwtErr.pyIndexError ≠ .invalidHeaderError m) :=
  ⟨rfl, fun _ h => JwtErr.noConfusion h, fun _ h => JwtErr.noConfusion h⟩

/-! ## Trace-shape helper lemmas -/

theorem decode_ok_trace (cfg : Config) (co : Collaborators) (req : Request)
    (rt : String) (d : JwtData) (hd : String) (tr : List Stage)
    (hdec : _decode_jwt_from_request cfg co req rt = (.ok (d, hd), tr)) :
    tr = [.locate, .verifyType rt, .verifyRevocation] := by
  unfold _decode_jwt_from_request at hdec
  repeat' split at hdec
  all_goals simp_all

theorem decode_trace_shape (cfg : Config) (co : Collaborators) (req : Request)
    (rt : String) :
    (_decode_jwt_from_request cfg co req rt).2 = [.locate] ∨
    (_decode_jwt_from_request cfg co req rt).2 = [.locate, .verifyType rt] ∨
    (_decode_jwt_from_request cfg co req rt).2
      = [.locate, .verifyType rt, .verifyRevocation] := by
  unfold _decode_jwt_from_request
  repeat' split
  all_goals simp

/-! ## C8: freshness check under the FreshAccessRequired policy -/

/-- A request whose `Authorization` header carries the token `coAllPass`
decodes successfully. -/
def reqGood : Request := reqAuth "Bearer good.token"

/-- Collaborators that decode every candidate to the stale token
`jwtStale`. -/
def coStale : Collaborators :=
  { coAllPass with decode_token := fun _ _ => .ok jwtStale }

/-- C8: once an access token has been decoded (and passed the type and
revocation checks), a boolean `false` freshness claim — whatever the other
claims are — raises `FreshTokenRequired` and stops the pipeline before the
claim-verification stage; a timestamp freshness claim strictly below the
current time does the same; a boolean `true` or a timestamp at or above the
current time passes the freshness check, the pipeline proceeding to the
claim-verification stage. -/
theorem C8_freshness_semantics (cfg : Config) (co : Collaborators)
    (req : Request) (now : Int) (d : JwtData) (hmeta : String)
    (tr : List Stage)
    (hme : req.method ∉ cfg.exempt_methods)
    (hdec : _decode_jwt_from_request cfg co req "access" = (.ok (d, hmeta), tr)) :
    (d.fresh = .b false →
      (verify_fresh_jwt_in_request cfg co req now).result
        = .error (.freshTokenRequired "Fresh token required") ∧
      Stage.verifyClaims ∉ (verify_fresh_jwt_in_request cfg co req now).trace) ∧
    (∀ t, d.fresh = .ts t → t < now →
      (verify_fresh_jwt_in_request cfg co req now).result
        = .error (.freshTokenRequired "Fresh token required") ∧
      Stage.verifyClaims ∉ (verify_fresh_jwt_in_request cfg co req now).trace) ∧
    (d.fresh = .b true →
      Stage.verifyClaims ∈ (verify_fresh_jwt_in_request cfg co req now).trace) ∧
    (∀ t, d.fresh = .ts t → now ≤ t →
      Stage.verifyClaims ∈ (verify_fresh_jwt_in_request cfg co req now).trace) := by
  have htr := decode_ok_trace cfg co req "access" d hmeta tr hdec
  subst htr
  unfold verify_fresh_jwt_in_request
  simp only [if_neg hme, hdec]
  refine ⟨?_, ?_, ?_, ?_⟩
  · intro hf
    simp [hf]
  · intro t hf hlt
    simp [hf, hlt]
  · intro hf
    cases hvc : co.verify_token_claims d with
    | some e => simp [hf, hvc]
    | none =>
      rcases hlu : _load_user co d.identity
          { jwt := some d, jwt_header := some hmeta } with e | c <;>
        simp [hf, hvc, hlu]
  · intro t hf hge
    have hnlt : ¬ (t < now) := not_lt.mpr hge
    cases hvc : co.verify_token_claims d with
    | some e => simp [hf, hvc, hnlt]
    | none =>
      rcases hlu : _load_user co d.identity
          { jwt := some d, jwt_header := some hmeta } with e | c <;>
        simp [hf, hvc, hnlt, hlu]

/-- C8 (witness): the stale token (`fresh = false`) in a default
configuration raises `FreshTokenRequired`. -/
theorem C8_freshness_semantics_witness :
    (verify_fresh_jwt_in_request cfgDefault coStale reqGood 0).result
      = .error (.freshTokenRequired "Fresh token required") :=
  ((C8_freshness_semantics cfgDefault coStale reqGood 0 jwtStale "jose-header"
      [.locate, .verifyType "access", .verifyRevocation]
      (by decide) rfl).1 rfl).1

/-! ## C9: identity loading -/

/-- C9: `_load_user` is a no-op when no loader capability is configured; a
configured loader returning `None` is a hard `UserLoadError`; a configured
loader returning a principal binds it into the context — so, starting from a
context with no principal, the resulting principal is `u` iff a loader is
configured and returns `u`. -/
theorem C9_load_user_principal (co : Collaborators) (identity : JVal)
    (ctx : Ctx) :
    (co.has_user_loader = true → co.user_loader identity = none →
      _load_user co identity ctx
        = .error (.userLoadError "user_loader returned None")) ∧
    (∀ u, co.has_user_loader = true → co.user_loader identity = some u →
      _load_user co identity ctx = .ok { ctx with jwt_user := some u }) ∧
    (co.has_user_loader = false → _load_user co identity ctx = .ok ctx) ∧
    (∀ ctx2, ctx.jwt_user = none → _load_user co identity ctx = .ok ctx2 →
      ∀ u, (ctx2.jwt_user = some u ↔
        co.has_user_loader = true ∧ co.user_loader identity = some u)) := by
  unfold _load_user
  refine ⟨?_, ?_, ?_, ?_⟩
  · intro hl hn
    simp [hl, hn]
  · intro u hl hs
    simp [hl, hs]
  · intro hl
    simp [hl]
  · intro ctx2 hnone hok u
    cases hl : co.has_user_loader with
    | false =>
      simp only [hl, Bool.false_eq_true, if_false, Except.ok.injEq] at hok
      subst hok
      simp [hnone, hl]
    | true =>
      cases hs : co.user_loader identity with
      | none => simp [hl, hs] at hok
      | some v =>
        simp only [hl, hs, if_true] at hok
        simp only [Except.ok.injEq] at hok
        subst hok
        simp [hl, hs]

/-- C9 (witness): `coAllPass` has a configured loader resolving the string
identity `alice` to the principal `alice`, which is bound into an empty
context. -/
theorem C9_load_user_principal_witness :
    _load_user coAllPass (.s "alice") {}
      = .ok { jwt_user := some "alice" } :=
  (C9_load_user_principal coAllPass (.s "alice") {}).2.1 "alice" rfl rfl

/-! ## C5: token-locator resolution policy -/

/-- C5: for every configured source list split as `pre ++ loc :: post` where
every source in `pre` fails with `NoAuthorizationError`: if `loc`'s candidate
decodes successfully the locator stops there — it consults exactly
`pre ++ [loc]`, so the sources in `post` are never consulted, whatever they
would return; if `loc` fails with any error kind other than
`NoAuthorizationError`, the locator aborts immediately with that error,
again never consulting `post`. -/
theorem C5_locator_resolution (cfg : Config) (co : Collaborators)
    (req : Request) (rt : String) (pre post : List Location) (loc : Location)
    (hpre : ∀ l ∈ pre, ∃ m,
      tryOneLocation cfg co req rt l = .error (.noAuthorizationError m)) :
    (∀ tok, tryOneLocation cfg co req rt loc = .ok tok →
      ∀ errs, tryLocations cfg co req rt (pre ++ loc :: post) errs
        = .found tok (pre ++ [loc])) ∧
    (∀ e, tryOneLocation cfg co req rt loc = .error e →
      (∀ m, e ≠ .noAuthorizationError m) →
      ∀ errs, tryLocations cfg co req rt (pre ++ loc :: post) errs
        = .fatal e (pre ++ [loc])) := by
  induction pre with
  | nil =>
    refine ⟨?_, ?_⟩
    · intro tok htok errs
      simp [tryLocations, htok]
    · intro e he hne errs
      cases e with
      | noAuthorizationError m => exact absurd rfl (hne m)
      | _ => simp [tryLocations, he]
  | cons l ls ih =>
    obtain ⟨m, hm⟩ := hpre l (List.mem_cons_self l ls)
    have ih' := ih (fun x hx => hpre x (List.mem_cons_of_mem _ hx))
    refine ⟨?_, ?_⟩
    · intro tok htok errs
      have hrec := ih'.1 tok htok (errs ++ [m])
      simp [tryLocations, hm, hrec]
    · intro e he hne errs
      have hrec := ih'.2 e he hne (errs ++ [m])
      simp [tryLocations, hm, hrec]

/-- C5 (witness): with `cookies` then `headers` configured, an absent cookie
is recoverable and the header token is used; the locator consulted exactly
the two sources in order. -/
theorem C5_locator_resolution_witness :
    tryLocations { token_location := [.cookies, .headers] } coAllPass reqGood
        "access" [.cookies, .headers] []
      = .found (jwtOk, "jose-header") [.cookies, .headers] :=
  (C5_locator_resolution { token_location := [.cookies, .headers] } coAllPass
      reqGood "access" [.cookies] [] .headers
      (fun l hl => by
        cases hl with
        | head =>
          exact ⟨"Missing cookie \"access_token_cookie\"", rfl⟩
        | tail _ h => cases h)).1
    (jwtOk, "jose-header") rfl []

/-! ## C7: the composed no-token error message -/

theorem tryLocations_all_noauth (cfg : Config) (co : Collaborators)
    (req : Request) (rt : String) (msgs : Location → String)
    (locs : List Location)
    (hall : ∀ l ∈ locs, tryOneLocation cfg co req rt l
      = .error (.noAuthorizationError (msgs l))) :
    ∀ errs, tryLocations cfg co req rt locs errs
      = .exhausted (errs ++ locs.map msgs) locs := by
  induction locs with
  | nil =>
    intro errs
    simp [tryLocations]
  | cons l ls ih =>
    intro errs
    have hl := hall l (List.mem_cons_self l ls)
    have hrec := ih (fun x hx => hall x (List.mem_cons_of_mem _ hx))
      (errs ++ [msgs l])
    simp [tryLocations, hl, hrec]

/-- C7: when every configured source fails with `NoAuthorizationError`, the
locator raises `NoAuthorizationError` whose message is: with exactly one
source configured, that source's error message verbatim; with several, the
configured source identifiers comma-joined with the last joined by "or",
followed by the semicolon-joined per-source error details, in configured
order. -/
theorem C7_composed_no_token_message (cfg : Config) (co : Collaborators)
    (req : Request) (rt : String) (msgs : Location → String)
    (l0 : Location) (ls : List Location)
    (hcfg : cfg.token_location = l0 :: ls)
    (hall : ∀ l ∈ cfg.token_location, tryOneLocation cfg co req rt l
      = .error (.noAuthorizationError (msgs l))) :
    (_decode_jwt_from_request cfg co req rt).1
      = .error (.noAuthorizationError
        (if ls = [] then msgs l0
         else
           let names := (l0 :: ls).map Location.name
           let start_locs := String.intercalate ", " names.dropLast
           let end_locs := names.getLastD ""
           let details := String.intercalate "; " ((l0 :: ls).map msgs)
           s!"Missing JWT in {start_locs} or {end_locs} ({details})")) := by
  have hex := tryLocations_all_noauth cfg co req rt msgs cfg.token_location
    hall []
  unfold _decode_jwt_from_request
  rw [hex]
  simp only [composeNoTokenMsg, hcfg]
  by_cases hls : ls = []
  · subst hls
    simp
  · have hlen : (l0 :: ls).length ≠ 1 := by
      simp [List.length_cons]
      intro h
      exact hls h
    simp [hlen, hls]

/-- C7 (witness): with `cookies` then `headers` configured and an empty
request, the locator's error carries the documented composed message. -/
theorem C7_composed_no_token_message_witness :
    (_decode_jwt_from_request { token_location := [.cookies, .headers] }
        coAllPass {} "access").1
      = .error (.noAuthorizationError
        "Missing JWT in cookies or headers (Missing cookie \"access_token_cookie\"; Missing Authorization Header)") := by
  have h := C7_composed_no_token_message
    { token_location := [.cookies, .headers] } coAllPass {} "access"
    (fun l => match l with
      | .cookies => "Missing cookie \"access_token_cookie\""
      | .headers => "Missing Authorization Header"
      | _ => "")
    .cookies [.headers] rfl
    (fun l hl => by
      cases hl with
      | head => exact rfl
      | tail _ h2 =>
        cases h2 with
        | head => exact rfl
        | tail _ h3 => cases h3)
  exact h.trans (by rfl)

/-! ## C6: the OptionalAccess swallow policy -/

/-- C6: the optional guard swallows exactly `NoAuthorizationError` and
`InvalidHeaderError` — turning them into success while keeping the context
and trace of the underlying run — and returns every other outcome of the
required-access pipeline unchanged, so any other error kind still blocks the
handler. -/
theorem C6_optional_swallow_policy (cfg : Config) (co : Collaborators)
    (req : Request) :
    (∀ m, (verify_jwt_in_request cfg co req).result
        = .error (.noAuthorizationError m) →
      verify_jwt_in_request_optional cfg co req
        = ⟨.ok (), (verify_jwt_in_request cfg co req).ctx,
            (verify_jwt_in_request cfg co req).trace⟩) ∧
    (∀ m, (verify_jwt_in_request cfg co req).result
        = .error (.invalidHeaderError m) →
      verify_jwt_in_request_optional cfg co req
        = ⟨.ok (), (verify_jwt_in_request cfg co req).ctx,
            (verify_jwt_in_request cfg co req).trace⟩) ∧
    ((verify_jwt_in_request cfg co req).result = .ok () →
      verify_jwt_in_request_optional cfg co req
        = verify_jwt_in_request cfg co req) ∧
    (∀ e, (verify_jwt_in_request cfg co req).result = .error e →
      (∀ m, e ≠ .noAuthorizationError m) →
      (∀ m, e ≠ .invalidHeaderError m) →
      verify_jwt_in_request_optional cfg co req
        = verify_jwt_in_request cfg co req) := by
  refine ⟨?_, ?_, ?_, ?_⟩
  · intro m hm
    unfold verify_jwt_in_request_optional
    simp only [hm]
  · intro m hm
    unfold verify_jwt_in_request_optional
    simp only [hm]
  · intro hok
    unfold verify_jwt_in_request_optional
    simp only [hok]
  · intro e he hna hih
    unfold verify_jwt_in_request_optional
    simp only [he]
    cases e with
    | noAuthorizationError m => exact absurd rfl (hna m)
    | invalidHeaderError m => exact absurd rfl (hih m)
    | _ => rfl

/-- C6 (witness): with zero tokens anywhere in the request, the optional
guard succeeds with an unpopulated context (no identity bound), swallowing
the locator's `NoAuthorizationError`. -/
theorem C6_optional_swallow_policy_witness :
    verify_jwt_in_request_optional cfgDefault coAllPass {}
      = ⟨.ok (), {}, [.locate]⟩ :=
  ((C6_optional_swallow_policy cfgDefault coAllPass {}).1
    "Missing Authorization Header" rfl).trans rfl

/-! ## C1: order of the verification checks -/

/-- The stages that are verification checks (type, revocation, freshness,
structural claims). -/
def isCheckStage : Stage → Bool
  | .verifyType _ => true
  | .verifyRevocation => true
  | .verifyFreshness => true
  | .verifyClaims => true
  | _ => false

/-- The verification checks of a trace, in execution order. -/
def checksOf (tr : List Stage) : List Stage := tr.filter isCheckStage

theorem required_checks_sublist (cfg : Config) (co : Collaborators)
    (req : Request) :
    (checksOf (verify_jwt_in_request cfg co req).trace).Sublist
      [.verifyType "access", .verifyRevocation, .verifyFreshness,
       .verifyClaims] := by
  unfold verify_jwt_in_request
  split
  · decide
  · split
    · rename_i e tr heq
      rcases decode_trace_shape cfg co req "access" with h | h | h <;>
        (rw [heq] at h; simp only at h; subst h;
         simp only [checksOf]; decide)
    · rename_i d hd tr heq
      have htr := decode_ok_trace cfg co req "access" d hd tr heq
      subst htr
      simp only [checksOf]
      repeat' split
      all_goals simp [isCheckStage]

theorem optional_trace_eq (cfg : Config) (co : Collaborators) (req : Request) :
    (verify_jwt_in_request_optional cfg co req).trace
      = (verify_jwt_in_request cfg co req).trace := by
  simp only [verify_jwt_in_request_optional]
  rcases hres : (verify_jwt_in_request cfg co req).result with e | u
  · cases e <;> simp [hres]
  · simp [hres]

theorem fresh_checks_sublist (cfg : Config) (co : Collaborators)
    (req : Request) (now : Int) :
    (checksOf (verify_fresh_jwt_in_request cfg co req now).trace).Sublist
      [.verifyType "access", .verifyRevocation, .verifyFreshness,
       .verifyClaims] := by
  unfold verify_fresh_jwt_in_request
  split
  · decide
  · split
    · rename_i e tr heq
      rcases decode_trace_shape cfg co req "access" with h | h | h <;>
        (rw [heq] at h; simp only at h; subst h;
         simp only [checksOf]; decide)
    · rename_i d hd tr heq
      have htr := decode_ok_trace cfg co req "access" d hd tr heq
      subst htr
      simp only [checksOf]
      repeat' split
      all_goals simp [isCheckStage]

theorem refresh_checks_sublist (cfg : Config) (co : Collaborators)
    (req : Request) :
    (checksOf (verify_jwt_refresh_token_in_request cfg co req).trace).Sublist
      [.verifyType "refresh", .verifyRevocation, .verifyFreshness,
       .verifyClaims] := by
  unfold verify_jwt_refresh_token_in_request
  split
  · decide
  · split
    · rename_i e tr heq
      rcases decode_trace_shape cfg co req "refresh" with h | h | h <;>
        (rw [heq] at h; simp only at h; subst h;
         simp only [checksOf]; decide)
    · rename_i d hd tr heq
      have htr := decode_ok_trace cfg co req "refresh" d hd tr heq
      subst htr
      simp only [checksOf]
      repeat' split
      all_goals simp [isCheckStage]

/-- C1 (counterexample): a fully successful FreshAccessRequired run executes
the checks as `type, revocation, freshness, claims` — the revocation check
runs second, before the freshness and structural-claims checks, so the
execution order is not an instance of the claimed order
`type, freshness, claims, revocation (last)`. -/
theorem C1_revocation_runs_before_claims :
    checksOf (verify_fresh_jwt_in_request cfgDefault coAllPass reqGood 0).trace
      = [.verifyType "access", .verifyRevocation, .verifyFreshness,
         .verifyClaims] ∧
    ¬ (checksOf
        (verify_fresh_jwt_in_request cfgDefault coAllPass reqGood 0).trace).Sublist
      [.verifyType "access", .verifyFreshness, .verifyClaims,
       .verifyRevocation] := by
  refine ⟨rfl, ?_⟩
  intro h
  rw [show checksOf
      (verify_fresh_jwt_in_request cfgDefault coAllPass reqGood 0).trace
      = [.verifyType "access", .verifyRevocation, .verifyFreshness,
         .verifyClaims] from rfl] at h
  exact absurd h (by decide)

/-- C1 (amended): in every guard run, the verification checks execute in the
order `type check, then revocation check, then freshness check (fresh guard
only), then structural-claims check` — each guard's check trace is an
in-order sublist of that master order, with expected type `access` for the
access guards and `refresh` for the refresh guard. -/
theorem C1_check_order_amended (cfg : Config) (co : Collaborators)
    (req : Request) (now : Int) :
    (checksOf (verify_jwt_in_request cfg co req).trace).Sublist
      [.verifyType "access", .verifyRevocation, .verifyFreshness,
       .verifyClaims] ∧
    (checksOf (verify_jwt_in_request_optional cfg co req).trace).Sublist
      [.verifyType "access", .verifyRevocation, .verifyFreshness,
       .verifyClaims] ∧
    (checksOf (verify_fresh_jwt_in_request cfg co req now).trace).Sublist
      [.verifyType "access", .verifyRevocation, .verifyFreshness,
       .verifyClaims] ∧
    (checksOf (verify_jwt_refresh_token_in_request cfg co req).trace).Sublist
      [.verifyType "refresh", .verifyRevocation, .verifyFreshness,
       .verifyClaims] :=
  ⟨required_checks_sublist cfg co req,
   optional_trace_eq cfg co req ▸ required_checks_sublist cfg co req,
   fresh_checks_sublist cfg co req now,
   refresh_checks_sublist cfg co req⟩

/-! ## C2: timing of context publication -/

theorem load_user_preserves_jwt (co : Collaborators) (idv : JVal)
    (ctx ctx2 : Ctx) (h : _load_user co idv ctx = .ok ctx2) :
    ctx2.jwt = ctx.jwt ∧ ctx2.jwt_header = ctx.jwt_header := by
  unfold _load_user at h
  repeat' split at h
  all_goals simp_all
  all_goals (subst h; simp)

/-- C2 (counterexample): a run whose freshness verification step fails
nevertheless has the decoded claims and header metadata published in the
request context — the context does not remain unpopulated when a
verification step fails. -/
theorem C2_context_populated_despite_failure :
    (verify_fresh_jwt_in_request cfgDefault coStale reqGood 0).result
      = .error (.freshTokenRequired "Fresh token required") ∧
    (verify_fresh_jwt_in_request cfgDefault coStale reqGood 0).ctx.jwt
      = some jwtStale ∧
    (verify_fresh_jwt_in_request cfgDefault coStale reqGood 0).ctx.jwt_header
      = some "jose-header" :=
  ⟨rfl, rfl, rfl⟩

/-- C2 (amended): the claims and header metadata are published into the
request context as soon as locate/decode/type/revocation succeed — before
the freshness, structural-claims and identity-load steps run — and they stay
published when a later step fails; when locate/decode/type/revocation fail,
the context stays empty; and the principal is never bound on a failed
run. -/
theorem C2_publication_timing (cfg : Config) (co : Collaborators)
    (req : Request) (now : Int)
    (hme : req.method ∉ cfg.exempt_methods) :
    (∀ e tr, _decode_jwt_from_request cfg co req "access" = (.error e, tr) →
      (verify_jwt_in_request cfg co req).ctx = {} ∧
      (verify_fresh_jwt_in_request cfg co req now).ctx = {}) ∧
    (∀ d hd tr,
      _decode_jwt_from_request cfg co req "access" = (.ok (d, hd), tr) →
      ((verify_jwt_in_request cfg co req).ctx.jwt = some d ∧
       (verify_jwt_in_request cfg co req).ctx.jwt_header = some hd) ∧
      ((verify_fresh_jwt_in_request cfg co req now).ctx.jwt = some d ∧
       (verify_fresh_jwt_in_request cfg co req now).ctx.jwt_header
         = some hd)) ∧
    (∀ e, (verify_jwt_in_request cfg co req).result = .error e →
      (verify_jwt_in_request cfg co req).ctx.jwt_user = none) ∧
    (∀ e, (verify_fresh_jwt_in_request cfg co req now).result = .error e →
      (verify_fresh_jwt_in_request cfg co req now).ctx.jwt_user = none) := by
  refine ⟨?_, ?_, ?_, ?_⟩
  · intro e tr hdec
    constructor
    · unfold verify_jwt_in_request
      simp only [if_neg hme, hdec]
    · unfold verify_fresh_jwt_in_request
      simp only [if_neg hme, hdec]
  · intro d hd tr hdec
    constructor
    · unfold verify_jwt_in_request
      simp only [if_neg hme, hdec]
      repeat' split
      · simp
      · simp
      · rename_i ctx2 hload
        have := load_user_preserves_jwt co d.identity _ ctx2 hload
        simp_all
    · unfold verify_fresh_jwt_in_request
      simp only [if_neg hme, hdec]
      repeat' split
      · simp
      · simp
      · simp
      · rename_i ctx2 hload
        have := load_user_preserves_jwt co d.identity _ ctx2 hload
        simp_all
  · intro e
    unfold verify_jwt_in_request
    simp only [if_neg hme]
    rcases hdec : _decode_jwt_from_request cfg co req "access" with ⟨res, tr⟩
    try simp only [hdec]
    rcases res with e2 | ⟨d, hd⟩
    · intro _; rfl
    · repeat' split
      all_goals intro h2
      all_goals simp_all
  · intro e
    unfold verify_fresh_jwt_in_request
    simp only [if_neg hme]
    rcases hdec : _decode_jwt_from_request cfg co req "access" with ⟨res, tr⟩
    try simp only [hdec]
    rcases res with e2 | ⟨d, hd⟩
    · intro _; rfl
    · repeat' split
      all_goals intro h2
      all_goals simp_all

/-- C2 (witness): freshness failure on the stale token leaves the claims and
header published (and the locator-failure case leaves the context empty on a
tokenless request). -/
theorem C2_publication_timing_witness :
    (verify_fresh_jwt_in_request cfgDefault coStale reqGood 0).ctx.jwt
      = some jwtStale ∧
    (verify_jwt_in_request cfgDefault coStale ({} : Request)).ctx = {} :=
  ⟨(((C2_publication_timing cfgDefault coStale reqGood 0 (by decide)).2.1
      jwtStale "jose-header"
      [.locate, .verifyType "access", .verifyRevocation] rfl).2).1,
   ((C2_publication_timing cfgDefault coStale ({} : Request) 0 (by decide)).1
      (.noAuthorizationError "Missing Authorization Header")
      [.locate] rfl).1⟩

/-! ## C4: the RequiredRefresh pipeline -/

/-- Collaborators whose structural-claims check rejects every token. -/
def coClaimsFail : Collaborators :=
  { coAllPass with
    verify_token_claims := fun _ => some (.userClaimsVerificationError "bad claims") }

/-- C4 (counterexample): with a claims verifier that rejects every token,
the access guard fails on the claims check, yet the refresh guard succeeds
on the same request and never executes a claims-verification stage — the
refresh guard does not perform the structural/custom claims verification
step. -/
theorem C4_refresh_guard_skips_claims_check :
    (verify_jwt_in_request cfgDefault coClaimsFail reqGood).result
      = .error (.userClaimsVerificationError "bad claims") ∧
    (verify_jwt_refresh_token_in_request cfgDefault coClaimsFail reqGood).result
      = .ok () ∧
    Stage.verifyClaims ∉
      (verify_jwt_refresh_token_in_request cfgDefault coClaimsFail reqGood).trace :=
  ⟨rfl, rfl, by decide⟩

/-- C4 (amended): the RequiredRefresh guard runs the same pipeline as
RequiredAccess except that its expected token type is `refresh` (every
type-check stage it executes carries `refresh`) and it skips both the
freshness check and the structural/custom claims check; after a successful
decode it proceeds directly to publishing the context and loading the
identity. -/
theorem C4_refresh_pipeline (cfg : Config) (co : Collaborators)
    (req : Request) :
    Stage.verifyFreshness ∉
      (verify_jwt_refresh_token_in_request cfg co req).trace ∧
    Stage.verifyClaims ∉
      (verify_jwt_refresh_token_in_request cfg co req).trace ∧
    (∀ s, Stage.verifyType s ∈
      (verify_jwt_refresh_token_in_request cfg co req).trace → s = "refresh") ∧
    (∀ d hd tr, req.method ∉ cfg.exempt_methods →
      _decode_jwt_from_request cfg co req "refresh" = (.ok (d, hd), tr) →
      (verify_jwt_refresh_token_in_request cfg co req).trace
        = [.locate, .verifyType "refresh", .verifyRevocation,
           .publishContext, .loadIdentity]) := by
  have htrace : (verify_jwt_refresh_token_in_request cfg co req).trace = []
      ∨ (verify_jwt_refresh_token_in_request cfg co req).trace = [.locate]
      ∨ (verify_jwt_refresh_token_in_request cfg co req).trace
          = [.locate, .verifyType "refresh"]
      ∨ (verify_jwt_refresh_token_in_request cfg co req).trace
          = [.locate, .verifyType "refresh", .verifyRevocation]
      ∨ (verify_jwt_refresh_token_in_request cfg co req).trace
          = [.locate, .verifyType "refresh", .verifyRevocation,
             .publishContext, .loadIdentity] := by
    unfold verify_jwt_refresh_token_in_request
    split
    · simp
    · split
      · rename_i e tr heq
        rcases decode_trace_shape cfg co req "refresh" with h | h | h <;>
          (rw [heq] at h; simp only at h; subst h; simp)
      · rename_i d hd tr heq
        have htr := decode_ok_trace cfg co req "refresh" d hd tr heq
        subst htr
        rcases hload : _load_user co d.identity
            { jwt := some d, jwt_header := some hd, jwt_user := none }
          with e2 | c2 <;> simp [hload]
  refine ⟨?_, ?_, ?_, ?_⟩
  · rcases htrace with h | h | h | h | h <;> (rw [h]; decide)
  · rcases htrace with h | h | h | h | h <;> (rw [h]; decide)
  · intro s hs
    rcases htrace with h | h | h | h | h <;>
      (rw [h] at hs; simp at hs) <;> simp [hs]
  · intro d hd tr hme hdec
    unfold verify_jwt_refresh_token_in_request
    simp only [if_neg hme, hdec]
    have htr := decode_ok_trace cfg co req "refresh" d hd tr hdec
    subst htr
    rcases hload : _load_user co d.identity
        { jwt := some d, jwt_header := some hd, jwt_user := none }
      with e2 | c2 <;> simp [hload]

/-- C4 (witness): a successful refresh-guard run on the default
configuration executes exactly locate, type check (expecting `refresh`),
revocation check, context publication and identity load. -/
theorem C4_refresh_pipeline_witness :
    (verify_jwt_refresh_token_in_request cfgDefault coAllPass reqGood).trace
      = [.locate, .verifyType "refresh", .verifyRevocation,
         .publishContext, .loadIdentity] :=
  (C4_refresh_pipeline cfgDefault coAllPass reqGood).2.2.2 jwtOk "jose-header"
    [.locate, .verifyType "refresh", .verifyRevocation] (by decide) rfl
